import Mathlib

/-!
Shallow embedding of `util/tracing/visualization/fedsd_helper.py` from the
lingua-franca repository, together with theorems checking the repository's
specification against it.

Conventions of the embedding:
* Python integers are `ℤ`; the real-valued arithmetic done through `math.atan`,
  `math.ceil` and float division is modelled over `ℝ` with `Int.ceil`.
* Python's `str(i)` on an integer is `intStr i`, a standard decimal renderer.
* A Python function that can raise (here: `ZeroDivisionError` in
  `svg_string_draw_label` when the denominator of the slope ratio is zero)
  returns an `Option String`; `none` models the raised exception.
* The module-level dictionary `prune_event_name` is an association list in
  insertion order; `dict.setdefault` appends the binding only when the key is
  absent, exactly as in Python.
-/

namespace FedsdHelper

/-- Decimal digit string of a natural number, as Python's str builtin renders it. -/
def natStr (n : ℕ) : String :=
  if n = 0 then "0" else ⟨((Nat.digits 10 n).map Nat.digitChar).reverse⟩

/-- Decimal rendering of an integer, as Python's str builtin renders it. -/
def intStr (i : ℤ) : String :=
  if i < 0 then "-" ++ natStr i.natAbs else natStr i.natAbs

/-- The dictionary literal initializing `prune_event_name` (fedsd_helper.py lines 5-33),
in insertion order. -/
def prune_event_name_literal : List (String × String) :=
  [("Federate sends TIMESTAMP to RTI", "TIMESTAMP"),
   ("Federate sends NET to RTI", "NET"),
   ("Federate sends LTC to RTI", "LTC"),
   ("Federate sends STOP_REQ to RTI", "STOP_REQ"),
   ("Federate sends STOP_REQ_REP to RTI", "STOP_REQ_REP"),
   ("Federate receives ACK from RTI", "ACK"),
   ("Federate receives REJECT from RTI", "REJECT"),
   ("Federate receives TIMESTAMP from RTI", "TIMESTAMP"),
   ("Federate receives PTAG from RTI", "PTAG"),
   ("Federate receives TAG from RTI", "TAG"),
   ("Federate receives STOP_REQ from RTI", "STOP_REQ"),
   ("Federate receives STOP_GRN from RTI", "STOP_GRN"),
   ("Federate sends FED_ID to federate", "FED_ID"),
   ("Federate receives FED_ID from federate", "FED_ID"),
   ("RTI sends ACK to federate", "ACK"),
   ("RTI sends REJECT to federate", "REJECT"),
   ("RTI sends TIMESTAMP to federate", "TIMESTAMP"),
   ("RTI sends PTAG to federate", "PTAG"),
   ("RTI sends TAG to federate", "TAG"),
   ("RTI sends STOP_REQ to federate", "STOP_REQ"),
   ("RTI sends STOP_GRN to federate", "STOP_GRN"),
   ("RTI sends JOIN to federate", "JOIN"),
   ("RTI receives TIMESTAMP from federate", "TIMESTAMP"),
   ("RTI receives NET from federate", "NET"),
   ("RTI receives LTC from federate", "LTC"),
   ("RTI receives STOP_REQ from federate", "STOP_REQ"),
   ("RTI receives STOP_REQ_REP from federate", "STOP_REQ_REP")]

/-- Python's `dict.setdefault k v`: when `k` is absent the binding `(k, v)` is appended
at the end (Python dicts preserve insertion order); otherwise the dict is unchanged. -/
def dictSetdefault (d : List (String × String)) (k v : String) : List (String × String) :=
  if (List.lookup k d).isSome then d else d ++ [(k, v)]

/-- The `prune_event_name` table as it stands after module initialization, i.e. after
the `setdefault(" ", "UNIDENTIFIED")` call on line 35 of fedsd_helper.py. -/
def prune_event_name : List (String × String) :=
  dictSetdefault prune_event_name_literal " " "UNIDENTIFIED"

/-- Modelled from the spec: the Event Name Canonicalizer of spec section 4.1. The
lookup itself is performed by an out-of-scope caller of this module (not present under
src/); per the spec it returns "the mapped short tag if the string is a known key;
otherwise the fallback tag \"UNIDENTIFIED\"" and is a total function. -/
def canonicalize (s : String) : String :=
  (List.lookup s prune_event_name).getD "UNIDENTIFIED"

/-- The canonical short tags listed in the spec's glossary mapping. -/
def glossaryTags : List String :=
  ["TIMESTAMP", "NET", "LTC", "STOP_REQ", "STOP_GRN", "PTAG", "TAG",
   "ACK", "REJECT", "FED_ID", "JOIN"]

/-- The part of the line fragment built before the dash conditional in
`svg_string_draw_line` (fedsd_helper.py line 55). -/
def strLineBase (x1 y1 x2 y2 : ℤ) : String :=
  "\t<line x1=\"" ++ intStr x1 ++ "\" y1=\"" ++ intStr y1 ++ "\" x2=\"" ++ intStr x2
    ++ "\" y2=\"" ++ intStr y2 ++ "\" stroke=\"black\" stroke-width=\"2\""

/-- Embedding of `svg_string_draw_line` (fedsd_helper.py lines 41-59). -/
def svg_string_draw_line (x1 y1 x2 y2 : ℤ) (dashed : Bool) : String :=
  (strLineBase x1 y1 x2 y2 ++ (if dashed then " stroke-dasharray=\"10,10\" " else ""))
    ++ "/>\n"

/-- The path fragment of the arrowhead triangle: tip at `(tx, ty)`, the two base
vertices at `(bx, ty + 5)` and `(bx, ty - 5)`. -/
def headTemplate (tx ty bx : ℤ) : String :=
  "\t<path d=\"M" ++ intStr tx ++ " " ++ intStr ty ++ " L" ++ intStr bx ++ " "
    ++ intStr (ty + 5) ++ " L" ++ intStr bx ++ " " ++ intStr (ty - 5) ++ " Z\" />\n"

/-- Embedding of `svg_string_draw_arrow_head` (fedsd_helper.py lines 62-78). -/
def svg_string_draw_arrow_head (x1 x2 y2 : ℤ) : String :=
  if x1 > x2 then headTemplate x2 y2 (x2 + 10) else headTemplate x2 y2 (x2 - 10)

/-- The text fragment of the leftward label branch: translated to `(x, y)`, rotated by
`r`, with the default (left) text alignment. -/
def labelLeftTemplate (x y r : ℤ) (label : String) : String :=
  "\t<text transform=\"translate(" ++ intStr x ++ ", " ++ intStr y ++ ") rotate("
    ++ intStr r ++ ")\" font-size=\"smaller\">" ++ label ++ "</text>\n"

/-- The text fragment of the rightward label branch: translated to `(x, y)`, rotated by
`r`, with center text-anchoring. -/
def labelMidTemplate (x y r : ℤ) (label : String) : String :=
  "\t<text transform=\"translate(" ++ intStr x ++ ", " ++ intStr y ++ ") rotate("
    ++ intStr r ++ ")\" font-size=\"smaller\" text-anchor=\"middle\">" ++ label
    ++ "</text>\n"

/-- Rotation of the leftward label branch (fedsd_helper.py line 97):
`- math.ceil(math.atan((x2-x1)/(y2-y1)) * 180 / 3.14) - 90`. -/
noncomputable def rotationLeft (x1 y1 x2 y2 : ℤ) : ℤ :=
  -⌈Real.arctan (((x2 : ℝ) - (x1 : ℝ)) / ((y2 : ℝ) - (y1 : ℝ))) * 180 / 3.14⌉ - 90

/-- Rotation of the rightward label branch (fedsd_helper.py line 100):
`- math.ceil(math.atan((x1-x2)/(y1-y2)) * 180 / 3.14) + 90`. -/
noncomputable def rotationRight (x1 y1 x2 y2 : ℤ) : ℤ :=
  -⌈Real.arctan (((x1 : ℝ) - (x2 : ℝ)) / ((y1 : ℝ) - (y2 : ℝ))) * 180 / 3.14⌉ + 90

/-- Rounded-up half of a sum, `math.ceil((a + b) / 2)` on integers. -/
noncomputable def ceilHalf (a b : ℤ) : ℤ := ⌈((a : ℝ) + (b : ℝ)) / 2⌉

/-- Embedding of `svg_string_draw_label` (fedsd_helper.py lines 81-105). Python float
division raises `ZeroDivisionError` when the denominator of the slope ratio is zero;
the embedding returns `none` in exactly that situation. -/
noncomputable def svg_string_draw_label (x1 y1 x2 y2 : ℤ) (label : String) :
    Option String :=
  if x2 < x1 then
    if y2 - y1 = 0 then none
    else some (labelLeftTemplate (x2 + 5) (y2 - 5) (rotationLeft x1 y1 x2 y2) label)
  else
    if y1 - y2 = 0 then none
    else some (labelMidTemplate (ceilHalf x2 x1) (ceilHalf y1 y2 - 5)
      (rotationRight x1 y1 x2 y2) label)

/-- Embedding of `svg_string_draw_arrow` (fedsd_helper.py lines 108-126): the
concatenation of line, arrowhead and label fragments; an exception raised by the label
computation propagates. -/
noncomputable def svg_string_draw_arrow (x1 y1 x2 y2 : ℤ) (label : String)
    (dashed : Bool) : Option String :=
  (svg_string_draw_label x1 y1 x2 y2 label).map
    (fun s3 => svg_string_draw_line x1 y1 x2 y2 dashed
      ++ svg_string_draw_arrow_head x1 x2 y2 ++ s3)

/-- Embedding of `svg_string_comment` (fedsd_helper.py lines 129-139). -/
def svg_string_comment (comment : String) : String :=
  "\n\t<!-- " ++ comment ++ " -->\n"

/-- Embedding of `svg_string_draw_dot` (fedsd_helper.py lines 142-156). -/
def svg_string_draw_dot (x y : ℤ) (label : String) : String :=
  "\t<circle cx=\"" ++ intStr x ++ "\" cy=\"" ++ intStr y
    ++ "\" r=\"5\" stroke=\"black\" stroke-width=\"1\" fill=\"black\"/>\n"
    ++ "\t<text x=\"" ++ intStr (x + 5) ++ "\", y=\"" ++ intStr (y + 2)
    ++ "\" fill=\"blue\" font-size=\"smaller\">" ++ label ++ "</text>\n"

/-- Rotation formula of the leftward branch exactly as the claim's words read it: the
arctangent of the delta ratio converted to degrees, i.e. multiplied by `180 / π`
(where the source multiplies by `180 / 3.14`). Stated for comparison with
`rotationLeft`. -/
noncomputable def specRotationLeftDeg (x1 y1 x2 y2 : ℤ) : ℤ :=
  -⌈Real.arctan (((x2 : ℝ) - (x1 : ℝ)) / ((y2 : ℝ) - (y1 : ℝ))) * 180 / Real.pi⌉ - 90

/-- C1: every string that is not a key of the event-name table canonicalizes to the
fallback tag "UNIDENTIFIED"; the canonicalizer is total, so unknown input is an
expected case, not an error. -/
theorem canonicalize_unknown_fallback (s : String)
    (h : List.lookup s prune_event_name = none) :
    canonicalize s = "UNIDENTIFIED" := by
  simp [canonicalize, h]

theorem canonicalize_unknown_fallback_witness :
    List.lookup "unknown event" FedsdHelper.prune_event_name = none ∧
    FedsdHelper.canonicalize "unknown event" = "UNIDENTIFIED" :=
  ⟨by decide, canonicalize_unknown_fallback "unknown event" (by decide)⟩

/-- C7: every key present in the event-name table canonicalizes to the short tag the
table documents for it; in particular "Federate sends NET to RTI" maps to "NET". -/
theorem canonicalize_known_keys :
    (∀ k v, List.lookup k prune_event_name = some v → canonicalize k = v) ∧
    canonicalize "Federate sends NET to RTI" = "NET" := by
  constructor
  · intro k v h
    simp [canonicalize, h]
  · decide

theorem canonicalize_known_keys_witness :
    List.lookup "Federate sends TIMESTAMP to RTI" FedsdHelper.prune_event_name =
      some "TIMESTAMP" ∧
    FedsdHelper.canonicalize "Federate sends TIMESTAMP to RTI" = "TIMESTAMP" :=
  ⟨by decide, canonicalize_known_keys.1 "Federate sends TIMESTAMP to RTI" "TIMESTAMP"
    (by decide)⟩

/-- C9 fails as stated: the table holds the entry
("Federate sends STOP_REQ_REP to RTI", "STOP_REQ_REP"), and "STOP_REQ_REP" is not one
of the glossary's short tags. -/
theorem table_tags_counterexample :
    ("Federate sends STOP_REQ_REP to RTI", "STOP_REQ_REP") ∈ prune_event_name ∧
    "STOP_REQ_REP" ∉ glossaryTags := by
  decide

/-- C9 (amended): after initialization the table has exactly its 28 fixed entries;
every entry's short tag is a glossary tag or one of the two extra tags "STOP_REQ_REP"
and "UNIDENTIFIED", and every glossary tag occurs as the tag of some entry. -/
theorem table_tags_amended :
    prune_event_name.length = 28 ∧
    (∀ p ∈ prune_event_name,
      p.2 ∈ glossaryTags ∨ p.2 = "STOP_REQ_REP" ∨ p.2 = "UNIDENTIFIED") ∧
    (∀ t ∈ glossaryTags, ∃ p ∈ prune_event_name, p.2 = t) := by
  decide

theorem table_tags_amended_witness :
    ("RTI sends JOIN to federate", "JOIN") ∈ FedsdHelper.prune_event_name ∧
    ("JOIN" ∈ FedsdHelper.glossaryTags ∨ "JOIN" = "STOP_REQ_REP" ∨
      "JOIN" = "UNIDENTIFIED") :=
  ⟨by decide, table_tags_amended.2.1 ("RTI sends JOIN to federate", "JOIN") (by decide)⟩

/-- C10: after initialization the table maps the single-space key " " to
"UNIDENTIFIED", and " " is the only key whose value is "UNIDENTIFIED" (the table is a
constant of the embedding; no function of the module touches it). -/
theorem fallback_entry_unique :
    List.lookup " " prune_event_name = some "UNIDENTIFIED" ∧
    prune_event_name.filter (fun p => p.2 == "UNIDENTIFIED") =
      [(" ", "UNIDENTIFIED")] := by
  decide

/-- C5: the arrowhead triangle has its tip at (x2, y2) and its two base vertices at
vertical offsets +5 and -5 from the tip; their x-coordinate is x2 + 10 (right of the
tip) when x1 > x2, and x2 - 10 (left of the tip, pointing right) otherwise, the tie
x1 = x2 included. -/
theorem arrow_head_orientation (x1 x2 y2 : ℤ) :
    (x2 < x1 → svg_string_draw_arrow_head x1 x2 y2 = headTemplate x2 y2 (x2 + 10)) ∧
    (x1 ≤ x2 → svg_string_draw_arrow_head x1 x2 y2 = headTemplate x2 y2 (x2 - 10)) := by
  refine ⟨fun h => ?_, fun h => ?_⟩
  · simp only [svg_string_draw_arrow_head]
    rw [if_pos h]
  · simp only [svg_string_draw_arrow_head]
    rw [if_neg (not_lt.mpr h)]

theorem arrow_head_orientation_witness :
    FedsdHelper.svg_string_draw_arrow_head 5 1 0 = FedsdHelper.headTemplate 1 0 (1 + 10) ∧
    FedsdHelper.svg_string_draw_arrow_head 0 1 0 = FedsdHelper.headTemplate 1 0 (1 - 10) :=
  ⟨(arrow_head_orientation 5 1 0).1 (by decide),
   (arrow_head_orientation 0 1 0).2 (by decide)⟩

/-- C2 states the intent the spec demands, but the code divides by zero on horizontal
segments: on the input (0,0)-(5,0) with x1 ≠ x2 and y1 = y2 the label routine raises
ZeroDivisionError (the embedding returns none) instead of producing a rotation. -/
theorem label_horizontal_faults :
    svg_string_draw_label 0 0 5 0 "TAG" = none := by
  rfl

/-- C4 fails as stated: it quantifies over every pair of endpoints, but on the
horizontal input (0,0)-(5,0) (sink x ≥ source x) the label routine faults instead of
producing the center-anchored fragment at the rounded midpoint. -/
theorem label_anchor_counterexample :
    svg_string_draw_label 0 0 5 0 "LTC" = none := by
  rfl

/-- C4 (amended): provided the segment is not horizontal (y1 ≠ y2; otherwise the
routine faults), the label is anchored at (x2+5, y2-5) with the default (left) text
alignment when x2 < x1, and at the rounded-up midpoint
(ceil((x1+x2)/2), ceil((y1+y2)/2)-5) with center text-anchoring when x1 ≤ x2. -/
theorem label_anchor (x1 y1 x2 y2 : ℤ) (label : String) (h : y1 ≠ y2) :
    (x2 < x1 → ∃ r, svg_string_draw_label x1 y1 x2 y2 label =
      some (labelLeftTemplate (x2 + 5) (y2 - 5) r label)) ∧
    (x1 ≤ x2 → ∃ r, svg_string_draw_label x1 y1 x2 y2 label =
      some (labelMidTemplate (ceilHalf x2 x1) (ceilHalf y1 y2 - 5) r label)) := by
  refine ⟨fun hx => ⟨rotationLeft x1 y1 x2 y2, ?_⟩,
    fun hx => ⟨rotationRight x1 y1 x2 y2, ?_⟩⟩
  · simp only [svg_string_draw_label]
    rw [if_pos hx, if_neg (by omega)]
  · simp only [svg_string_draw_label]
    rw [if_neg (not_lt.mpr hx), if_neg (by omega)]

theorem label_anchor_witness :
    ∃ r, FedsdHelper.svg_string_draw_label 0 0 100 50 "NET" =
      some (FedsdHelper.labelMidTemplate (FedsdHelper.ceilHalf 100 0)
        (FedsdHelper.ceilHalf 0 50 - 5) r "NET") :=
  (label_anchor 0 0 100 50 "NET" (by decide)).2 (by decide)

/-- C3 (amended): for non-horizontal segments the rotation emitted in the label
fragment is, in the leftward branch (x2 < x1), minus the ceiling of
atan((x2-x1)/(y2-y1)) multiplied by 180/3.14 (the code's approximate degree
conversion), minus 90; and in the other branch, minus the ceiling of
atan((x1-x2)/(y1-y2)) multiplied by 180/3.14, plus 90. -/
theorem label_rotation_formula (x1 y1 x2 y2 : ℤ) (label : String) (h : y1 ≠ y2) :
    (x2 < x1 → svg_string_draw_label x1 y1 x2 y2 label =
      some (labelLeftTemplate (x2 + 5) (y2 - 5)
        (-⌈Real.arctan (((x2 : ℝ) - (x1 : ℝ)) / ((y2 : ℝ) - (y1 : ℝ))) * 180 / 3.14⌉
          - 90) label)) ∧
    (x1 ≤ x2 → svg_string_draw_label x1 y1 x2 y2 label =
      some (labelMidTemplate (ceilHalf x2 x1) (ceilHalf y1 y2 - 5)
        (-⌈Real.arctan (((x1 : ℝ) - (x2 : ℝ)) / ((y1 : ℝ) - (y2 : ℝ))) * 180 / 3.14⌉
          + 90) label)) := by
  refine ⟨fun hx => ?_, fun hx => ?_⟩
  · simp only [svg_string_draw_label]
    rw [if_pos hx, if_neg (by omega)]
    rfl
  · simp only [svg_string_draw_label]
    rw [if_neg (not_lt.mpr hx), if_neg (by omega)]
    rfl

theorem label_rotation_formula_witness :
    FedsdHelper.svg_string_draw_label 0 0 100 50 "ACK" =
      some (FedsdHelper.labelMidTemplate (FedsdHelper.ceilHalf 100 0)
        (FedsdHelper.ceilHalf 0 50 - 5)
        (-⌈Real.arctan ((((0 : ℤ) : ℝ) - ((100 : ℤ) : ℝ))
          / (((0 : ℤ) : ℝ) - ((50 : ℤ) : ℝ))) * 180 / 3.14⌉ + 90) "ACK") :=
  (label_rotation_formula 0 0 100 50 "ACK" (by decide)).2 (by decide)

/-- C6: whenever the label primitive yields a fragment, the arrow composite is exactly
the concatenation, in order, of the line fragment, the arrowhead fragment and the
label fragment computed on the same inputs. -/
theorem arrow_concatenation (x1 y1 x2 y2 : ℤ) (label : String) (dashed : Bool)
    (s3 : String) (h : svg_string_draw_label x1 y1 x2 y2 label = some s3) :
    svg_string_draw_arrow x1 y1 x2 y2 label dashed =
      some (svg_string_draw_line x1 y1 x2 y2 dashed
        ++ svg_string_draw_arrow_head x1 x2 y2 ++ s3) := by
  simp [svg_string_draw_arrow, h]

theorem arrow_concatenation_witness :
    FedsdHelper.svg_string_draw_label 0 0 100 50 "TIMESTAMP" =
      some (FedsdHelper.labelMidTemplate (FedsdHelper.ceilHalf 100 0)
        (FedsdHelper.ceilHalf 0 50 - 5) (FedsdHelper.rotationRight 0 0 100 50)
        "TIMESTAMP") ∧
    FedsdHelper.svg_string_draw_arrow 0 0 100 50 "TIMESTAMP" false =
      some (FedsdHelper.svg_string_draw_line 0 0 100 50 false
        ++ FedsdHelper.svg_string_draw_arrow_head 0 100 50
        ++ FedsdHelper.labelMidTemplate (FedsdHelper.ceilHalf 100 0)
          (FedsdHelper.ceilHalf 0 50 - 5) (FedsdHelper.rotationRight 0 0 100 50)
          "TIMESTAMP") := by
  have h : FedsdHelper.svg_string_draw_label 0 0 100 50 "TIMESTAMP" =
      some (FedsdHelper.labelMidTemplate (FedsdHelper.ceilHalf 100 0)
        (FedsdHelper.ceilHalf 0 50 - 5) (FedsdHelper.rotationRight 0 0 100 50)
        "TIMESTAMP") := by rfl
  exact ⟨h, arrow_concatenation 0 0 100 50 "TIMESTAMP" false _ h⟩

lemma arctan_lt_self {x : ℝ} (hx : 0 < x) : Real.arctan x < x := by
  rcases lt_or_le x (Real.pi / 2) with h | h
  · have h1 : x < Real.tan x := Real.lt_tan hx h
    have h2 : Real.arctan (Real.tan x) = x :=
      Real.arctan_tan (by linarith [Real.pi_pos]) h
    calc Real.arctan x < Real.arctan (Real.tan x) := Real.arctan_strictMono h1
    _ = x := h2
  · exact lt_of_lt_of_le (Real.arctan_lt_pi_div_two x) h

lemma arctan_1257_gt : (1.57 : ℝ) < Real.arctan 1257 := by
  have h1 : Real.arctan ((1257 : ℝ)⁻¹) < (1257 : ℝ)⁻¹ := arctan_lt_self (by norm_num)
  have h2 : Real.arctan ((1257 : ℝ)⁻¹) = Real.pi / 2 - Real.arctan 1257 :=
    Real.arctan_inv_of_pos (by norm_num)
  have hpi : (3.141592 : ℝ) < Real.pi := Real.pi_gt_d6
  rw [h2] at h1
  nlinarith

lemma ceil_code_rot : ⌈Real.arctan 1257 * 180 / 3.14⌉ = (91 : ℤ) := by
  rw [Int.ceil_eq_iff]
  have h1 := arctan_1257_gt
  have h2 : Real.arctan 1257 < Real.pi / 2 := Real.arctan_lt_pi_div_two 1257
  have hpi : Real.pi < 3.141593 := Real.pi_lt_d6
  constructor
  · push_cast
    rw [lt_div_iff₀ (by norm_num : (0 : ℝ) < 3.14)]
    nlinarith
  · push_cast
    rw [div_le_iff₀ (by norm_num : (0 : ℝ) < 3.14)]
    nlinarith

lemma ceil_spec_rot : ⌈Real.arctan 1257 * 180 / Real.pi⌉ = (90 : ℤ) := by
  rw [Int.ceil_eq_iff]
  have hπ : (0 : ℝ) < Real.pi := Real.pi_pos
  have h1 := arctan_1257_gt
  have h2 : Real.arctan 1257 < Real.pi / 2 := Real.arctan_lt_pi_div_two 1257
  have hpi : Real.pi < 3.141593 := Real.pi_lt_d6
  constructor
  · push_cast
    rw [lt_div_iff₀ hπ]
    nlinarith
  · push_cast
    rw [div_le_iff₀ hπ]
    nlinarith

/-- C3 fails as stated: on the leftward input (0,0)-(-1257,-1) the code (which
multiplies the arctangent by 180/3.14) emits rotation -181, while the claim's formula
with the arctangent converted to degrees (multiplied by 180/π) yields -180. -/
theorem label_rotation_counterexample :
    svg_string_draw_label 0 0 (-1257) (-1) "REJECT" =
      some (labelLeftTemplate (-1252) (-6) (-181) "REJECT") ∧
    specRotationLeftDeg 0 0 (-1257) (-1) = -180 := by
  have harg : ((((-1257) : ℤ) : ℝ) - ((0 : ℤ) : ℝ)) / ((((-1) : ℤ) : ℝ) - ((0 : ℤ) : ℝ))
      = (1257 : ℝ) := by
    norm_num
  constructor
  · have hrot : rotationLeft 0 0 (-1257) (-1) = -181 := by
      unfold rotationLeft
      rw [harg, ceil_code_rot]
      decide
    have hbr : svg_string_draw_label 0 0 (-1257) (-1) "REJECT" =
        some (labelLeftTemplate ((-1257) + 5) ((-1) - 5)
          (rotationLeft 0 0 (-1257) (-1)) "REJECT") := by
      simp only [svg_string_draw_label]
      rw [if_pos (show ((-1257) : ℤ) < 0 by decide),
        if_neg (show ¬(((-1) : ℤ) - 0 = 0) by decide)]
    rw [hbr, hrot]
    norm_num
  · unfold specRotationLeftDeg
    rw [harg, ceil_spec_rot]
    decide

lemma digitChar_not_alpha {d : ℕ} (hd : d < 10) : (Nat.digitChar d).isAlpha = false := by
  interval_cases d <;> decide

lemma natStr_no_alpha (n : ℕ) : (natStr n).data.filter (fun c => c.isAlpha) = [] := by
  unfold natStr
  split
  · decide
  · show (((Nat.digits 10 n).map Nat.digitChar).reverse).filter (fun c => c.isAlpha) = []
    rw [List.filter_eq_nil_iff]
    intro c hc
    rw [List.mem_reverse, List.mem_map] at hc
    obtain ⟨d, hd, rfl⟩ := hc
    have hlt : d < 10 := Nat.digits_lt_base (by norm_num) hd
    simp [digitChar_not_alpha hlt]

lemma intStr_no_alpha (i : ℤ) : (intStr i).data.filter (fun c => c.isAlpha) = [] := by
  unfold intStr
  split
  · rw [String.data_append, List.filter_append, natStr_no_alpha]
    decide
  · exact natStr_no_alpha i.natAbs

lemma infix_filter {l₁ l₂ : List Char} (p : Char → Bool) (h : l₁ <:+: l₂) :
    l₁.filter p <:+: l₂.filter p := by
  obtain ⟨s, t, rfl⟩ := h
  exact ⟨s.filter p, t.filter p, by simp [List.filter_append]⟩

lemma line_false_letters (x1 y1 x2 y2 : ℤ) :
    (svg_string_draw_line x1 y1 x2 y2 false).data.filter (fun c => c.isAlpha) =
      "linexyxystrokeblackstrokewidth".data := by
  unfold svg_string_draw_line strLineBase
  simp only [String.data_append, List.filter_append, intStr_no_alpha, Bool.false_eq_true,
    if_false, List.append_nil, List.nil_append, List.append_assoc]
  decide

/-- C8: the line fragment contains the dash-pattern marker "stroke-dasharray" exactly
when the dashed flag is true; with the flag false no dash-pattern marker occurs
anywhere in the fragment. -/
theorem line_dash_marker (x1 y1 x2 y2 : ℤ) (dashed : Bool) :
    ("stroke-dasharray".data <:+: (svg_string_draw_line x1 y1 x2 y2 dashed).data) ↔
      dashed = true := by
  cases dashed
  · refine iff_of_false (fun hin => ?_) (by simp)
    have h2 := infix_filter (fun c => c.isAlpha) hin
    rw [line_false_letters] at h2
    have h3 : ("stroke-dasharray".data.filter (fun c => c.isAlpha)) =
        "strokedasharray".data := by decide
    rw [h3] at h2
    exact absurd h2 (by decide)
  · refine iff_of_true ?_ rfl
    have h1 : "stroke-dasharray".data <:+: (" stroke-dasharray=\"10,10\" ").data := by
      decide
    have h2 : (" stroke-dasharray=\"10,10\" ").data <:+:
        (strLineBase x1 y1 x2 y2).data ++ (" stroke-dasharray=\"10,10\" ").data
          ++ ("/>\n").data :=
      List.infix_append _ _ _
    have h3 := h1.trans h2
    unfold svg_string_draw_line
    simpa [String.data_append] using h3

end FedsdHelper
